import Mathlib

/-!
Verification of the backend-learning Game service core: the Game entity,
the in-memory repository adapter, the game service (Create/Get with
bomb-count validation), and the HTTP handler's status mapping.

Machine integers: the Go `uint` parameters of `GameService.Create` are
64-bit unsigned words; products wrap modulo `2 ^ 64`.  We embed them as
`Nat` with an explicit reduction `% W` at every point where the Go code
performs unsigned arithmetic or receives a `uint` argument.
-/

/-- Word bound of the Go `uint` type (64-bit). -/
def W : Nat := 2 ^ 64

/-- The Game entity: `ID`, `Name` from the domain record, plus `Size` and
`BombCount` of the richer (minesweeper-style) variant constructed by
`GameService.Create` (create_game_service.go line 14). -/
structure Game where
  ID : String
  Name : String
  Size : Nat
  BombCount : Nat
deriving DecidableEq, Repr

/-- Modelled from the spec (section 4.3 step 3): `domain.NewGame` of
`internal/core/domain` is not under src/; per the spec it constructs the
Game value with the supplied fields and the generated ID. -/
def NewGame (id name : String) (size bombs : Nat) : Game :=
  { ID := id, Name := name, Size := size, BombCount := bombs }

/-- The keyed store held by `GameRepositoryAdapter` (src/unnamed/part_000):
a Go map from ID strings to Game records. -/
def GamesMap : Type := String → Option Game

/-- The store of `NewGameRepositoryAdapter`: an empty map. -/
def emptyGames : GamesMap := fun _ => none

/-- `GameRepositoryAdapter.Get` (src/unnamed/part_000 lines 19-25):
look the id up in the map; if absent, fail with the error
"game not found"; otherwise return the stored Game by value. -/
def repoGet (repo : GamesMap) (id : String) : Except String Game :=
  match repo id with
  | none => .error "game not found"
  | some g => .ok g

/-- `GameRepositoryAdapter.Save` (src/unnamed/part_000 lines 27-30):
unconditional upsert `repo.games[game.ID] = game` followed by
`return nil` — the write never fails. -/
def repoSave (repo : GamesMap) (g : Game) : Except String GamesMap :=
  .ok (fun k => if k = g.ID then some g else repo k)

/-- State threaded through the service: the repository map plus the
counter of the injected UID generator (modelled from the spec: the
`codemodus/uidgen` capability is external; the spec requires only
`NextID() -> string`, called once per successful Create). The generator
itself is a function `uids : Nat → String` applied to the counter. -/
structure ServiceState where
  repo : GamesMap
  uidCounter : Nat

/-- Initial state: empty store, fresh generator. -/
def emptyState : ServiceState := { repo := emptyGames, uidCounter := 0 }

/-- `GameService.Create` (create_game_service.go lines 9-21):
reject when `bombs >= size*size` in wrapping `uint` arithmetic with the
error "the number of bombs is invalid" and no side effect; otherwise draw
one identifier from the UID generator, build the Game, save it, and map a
save failure to "create game into repository has failed". The `% W`
reductions embed the `uint` parameter type and the wrapping product. -/
def serviceCreate (uids : Nat → String) (name : String) (size bombs : Nat)
    (st : ServiceState) : Except String Game × ServiceState :=
  let sz := size % W
  let bo := bombs % W
  if (sz * sz) % W ≤ bo then
    (.error "the number of bombs is invalid", st)
  else
    let game := NewGame (uids st.uidCounter) name sz bo
    match repoSave st.repo game with
    | .error _ =>
        (.error "create game into repository has failed",
         { st with uidCounter := st.uidCounter + 1 })
    | .ok repo2 =>
        (.ok game, { repo := repo2, uidCounter := st.uidCounter + 1 })

/-- `GameService.Get` (get_game_service.go lines 9-16): delegate to the
repository; map any repository error to the single error
"get game from repository has failed"; otherwise return the Game. -/
def serviceGet (st : ServiceState) (id : String) : Except String Game :=
  match repoGet st.repo id with
  | .error _ => .error "get game from repository has failed"
  | .ok g => .ok g

/-- One inbound service call: Create with its arguments, or Get by id. -/
inductive Op where
  | create (name : String) (size bombs : Nat)
  | get (id : String)

/-- Effect of one service call on the shared state (`Get` reads only). -/
def applyOp (uids : Nat → String) (st : ServiceState) : Op → ServiceState
  | .create name size bombs => (serviceCreate uids name size bombs st).2
  | .get _ => st

/-- Run a sequence of service calls from a starting state. -/
def runOps (uids : Nat → String) (st : ServiceState) : List Op → ServiceState
  | [] => st
  | op :: rest => runOps uids (applyOp uids st op) rest

/-- Body of an HTTP response: a serialized Game or an error payload. -/
inductive HTTPBody where
  | gameJSON : Game → HTTPBody
  | messageJSON : String → HTTPBody
deriving DecidableEq, Repr

/-- `HTTPHandler.Get` (http.go lines 18-26): call the games service with
the path id; on any error answer status 500 with the error message; on
success answer 200 with the Game JSON. -/
def handlerGet (st : ServiceState) (id : String) : Nat × HTTPBody :=
  match serviceGet st id with
  | .error e => (500, .messageJSON e)
  | .ok g => (200, .gameJSON g)

/-- Concrete UID generator used to exercise the theorems on closed inputs:
the n-th identifier is the string of n+1 copies of the letter a, so every
identifier is non-empty and distinct identifiers come from distinct draws. -/
def uidsRep : Nat → String := fun n => String.mk (List.replicate (n + 1) 'a')

/-- Concrete one-entry store used to exercise the theorems: the Game with
ID "u" under key "u". -/
def singleGame : GamesMap :=
  fun k => if k = "u" then some (NewGame "u" "A" 5 3) else none

/-- Store obtained by saving the Game with ID "u" into the empty store. -/
def savedOnce : GamesMap :=
  fun k => if k = "u" then some (NewGame "u" "A" 5 3) else emptyGames k

/-- Store obtained by saving the same Game a second time. -/
def savedTwice : GamesMap :=
  fun k => if k = "u" then some (NewGame "u" "A" 5 3) else savedOnce k

/-- Repository invariant established by `GameService.Create`: every stored
Game has a bomb count strictly below its wrapped cell count. -/
def InvB (st : ServiceState) : Prop :=
  ∀ id g, st.repo id = some g → g.BombCount < (g.Size * g.Size) % W

theorem serviceCreate_reject (uids : Nat → String) (name : String)
    (size bombs : Nat) (st : ServiceState)
    (h : ((size % W) * (size % W)) % W ≤ bombs % W) :
    serviceCreate uids name size bombs st
      = (.error "the number of bombs is invalid", st) := by
  simp only [serviceCreate]
  rw [if_pos h]

theorem serviceCreate_accept (uids : Nat → String) (name : String)
    (size bombs : Nat) (st : ServiceState)
    (h : bombs % W < ((size % W) * (size % W)) % W) :
    serviceCreate uids name size bombs st
      = (.ok (NewGame (uids st.uidCounter) name (size % W) (bombs % W)),
         { repo := fun k =>
             if k = uids st.uidCounter then
               some (NewGame (uids st.uidCounter) name (size % W) (bombs % W))
             else st.repo k,
           uidCounter := st.uidCounter + 1 }) := by
  simp only [serviceCreate, repoSave, NewGame]
  rw [if_neg (Nat.not_le.mpr h)]

theorem emptyState_inv : InvB emptyState := by
  intro id g hg
  simp [emptyState, emptyGames] at hg

theorem applyOp_inv (uids : Nat → String) (st : ServiceState) (op : Op)
    (h : InvB st) : InvB (applyOp uids st op) := by
  cases op with
  | get _ => exact h
  | create name size bombs =>
    by_cases hc : ((size % W) * (size % W)) % W ≤ bombs % W
    · rw [applyOp, serviceCreate_reject uids name size bombs st hc]
      exact h
    · push_neg at hc
      intro id g hg
      rw [applyOp, serviceCreate_accept uids name size bombs st hc] at hg
      simp only [NewGame] at hg
      by_cases hid : id = uids st.uidCounter
      · rw [if_pos hid] at hg
        cases hg
        simpa [NewGame] using hc
      · rw [if_neg hid] at hg
        exact h id g hg

theorem runOps_inv (uids : Nat → String) (ops : List Op) (st : ServiceState)
    (h : InvB st) : InvB (runOps uids st ops) := by
  induction ops generalizing st with
  | nil => exact h
  | cons op rest ih => exact ih _ (applyOp_inv uids st op h)

/-- C2: for every uint size and bombCount with bombCount >= size*size,
Create fails with the invalid-input error and performs no side effect:
the returned state (repository map and UID counter) is the input state
unchanged. -/
theorem create_rejects_excess_bombs (uids : Nat → String) (name : String)
    (size bombs : Nat) (st : ServiceState)
    (hs : size < W) (hb : bombs < W) (hge : size * size ≤ bombs) :
    serviceCreate uids name size bombs st
      = (.error "the number of bombs is invalid", st) := by
  have hss : size * size < W := lt_of_le_of_lt hge hb
  apply serviceCreate_reject
  rw [Nat.mod_eq_of_lt hs, Nat.mod_eq_of_lt hss, Nat.mod_eq_of_lt hb]
  exact hge

/-- Witness for C2 at the spec's concrete scenario Create("Bad", 2, 4). -/
theorem create_rejects_excess_bombs_witness :
    serviceCreate (fun _ => "u") "Bad" 2 4 emptyState
      = (.error "the number of bombs is invalid", emptyState) :=
  create_rejects_excess_bombs (fun _ => "u") "Bad" 2 4 emptyState
    (by norm_num [W]) (by norm_num [W]) (by norm_num)

/-- C9: the bomb-count validation squares the size in wrapping 64-bit
arithmetic, so for size = 2^32 the product wraps to 0 and Create fails
with the invalid-input error for every bombs, leaving the state
unchanged. -/
theorem create_overflow_always_rejects (uids : Nat → String) (name : String)
    (bombs : Nat) (st : ServiceState) :
    serviceCreate uids name (2 ^ 32) bombs st
      = (.error "the number of bombs is invalid", st) := by
  apply serviceCreate_reject
  have h : ((2 ^ 32 % W) * (2 ^ 32 % W)) % W = 0 := by norm_num [W]
  rw [h]
  exact Nat.zero_le _

/-- C3: starting from the empty store, after any sequence of service
Create and Get calls, every persisted Game satisfies
BombCount < Size * Size. -/
theorem persisted_games_bomb_invariant (uids : Nat → String) (ops : List Op)
    (id : String) (g : Game)
    (h : (runOps uids emptyState ops).repo id = some g) :
    g.BombCount < g.Size * g.Size :=
  lt_of_lt_of_le (runOps_inv uids ops emptyState emptyState_inv id g h)
    (Nat.mod_le _ _)

/-- Witness for C3 after the single call Create("Alpha", 5, 3). -/
theorem persisted_games_bomb_invariant_witness :
    (NewGame "u" "Alpha" 5 3).BombCount
      < (NewGame "u" "Alpha" 5 3).Size * (NewGame "u" "Alpha" 5 3).Size :=
  persisted_games_bomb_invariant (fun _ => "u") [Op.create "Alpha" 5 3] "u"
    (NewGame "u" "Alpha" 5 3) rfl

/-- C10: Create with size 0 always fails with the invalid-input error and
no state change, and consequently no persisted Game reachable through the
service has Size 0. -/
theorem create_size_zero_always_rejected :
    (∀ (uids : Nat → String) (name : String) (bombs : Nat)
        (st : ServiceState),
      serviceCreate uids name 0 bombs st
        = (.error "the number of bombs is invalid", st)) ∧
    (∀ (uids : Nat → String) (ops : List Op) (id : String) (g : Game),
      (runOps uids emptyState ops).repo id = some g → 0 < g.Size) := by
  constructor
  · intro uids name bombs st
    apply serviceCreate_reject
    simp
  · intro uids ops id g h
    have hb := runOps_inv uids ops emptyState emptyState_inv id g h
    rcases Nat.eq_zero_or_pos g.Size with h0 | hpos
    · rw [h0] at hb
      simp at hb
    · exact hpos

/-- Witness for C10: Create("Zero", 0, 7) is rejected, and the Game stored
by Create("Beta", 2, 0) has positive Size. -/
theorem create_size_zero_always_rejected_witness :
    serviceCreate (fun _ => "v") "Zero" 0 7 emptyState
      = (.error "the number of bombs is invalid", emptyState) ∧
    0 < (NewGame "v" "Beta" 2 0).Size :=
  ⟨create_size_zero_always_rejected.1 (fun _ => "v") "Zero" 7 emptyState,
   create_size_zero_always_rejected.2 (fun _ => "v") [Op.create "Beta" 2 0]
     "v" (NewGame "v" "Beta" 2 0) rfl⟩

/-- C1 counterexample: size = 2^32 is positive and bombs = 5 is
mathematically below size*size = 2^64, yet Create fails with the
invalid-input error, because the validation squares size in wrapping
64-bit arithmetic where 2^32 * 2^32 wraps to 0. -/
theorem create_claim_fails_at_overflow :
    0 < (2 ^ 32 : Nat) ∧ (5 : Nat) < 2 ^ 32 * 2 ^ 32 ∧
    (serviceCreate uidsRep "Alpha" (2 ^ 32) 5 emptyState).1
      = .error "the number of bombs is invalid" := by
  refine ⟨by norm_num, by norm_num, ?_⟩
  rw [serviceCreate_reject uidsRep "Alpha" (2 ^ 32) 5 emptyState
    (by norm_num [W])]

/-- C1 (amended): for every uint size > 0 and bombCount below the wrapped
product (size * size) mod 2^64, Create succeeds, the created Game carries
the freshly drawn identifier — non-empty and produced by no other draw of
the generator — and a subsequent service Get with that identifier returns
the same Game (same ID, name, size, bomb count). -/
theorem create_then_get_roundtrip (uids : Nat → String) (name : String)
    (size bombs : Nat) (st : ServiceState)
    (hs : size < W) (hb : bombs < W) (hpos : 0 < size)
    (hlt : bombs < (size * size) % W)
    (hne : uids st.uidCounter ≠ "")
    (hfresh : ∀ n, n ≠ st.uidCounter → uids n ≠ uids st.uidCounter) :
    (serviceCreate uids name size bombs st).1
        = .ok (NewGame (uids st.uidCounter) name size bombs) ∧
    (NewGame (uids st.uidCounter) name size bombs).ID ≠ "" ∧
    (∀ n, n ≠ st.uidCounter →
        uids n ≠ (NewGame (uids st.uidCounter) name size bombs).ID) ∧
    serviceGet (serviceCreate uids name size bombs st).2 (uids st.uidCounter)
        = .ok (NewGame (uids st.uidCounter) name size bombs) := by
  have hacc := serviceCreate_accept uids name size bombs st
    (by rw [Nat.mod_eq_of_lt hb, Nat.mod_eq_of_lt hs]; exact hlt)
  rw [Nat.mod_eq_of_lt hs, Nat.mod_eq_of_lt hb] at hacc
  refine ⟨by rw [hacc], hne, hfresh, ?_⟩
  rw [hacc]
  simp [serviceGet, repoGet]

/-- Witness for C1 at Create("Alpha", 5, 3) with the replicate-a
generator, whose draws are pairwise distinct non-empty strings. -/
theorem create_then_get_roundtrip_witness :
    (serviceCreate uidsRep "Alpha" 5 3 emptyState).1
        = .ok (NewGame (uidsRep 0) "Alpha" 5 3) ∧
    (NewGame (uidsRep 0) "Alpha" 5 3).ID ≠ "" ∧
    serviceGet (serviceCreate uidsRep "Alpha" 5 3 emptyState).2 (uidsRep 0)
        = .ok (NewGame (uidsRep 0) "Alpha" 5 3) := by
  have hfresh : ∀ n, n ≠ emptyState.uidCounter →
      uidsRep n ≠ uidsRep emptyState.uidCounter := by
    intro n hn hEq
    apply hn
    have hlen := congrArg (fun s => s.data.length) hEq
    simpa [uidsRep, emptyState] using hlen
  have h := create_then_get_roundtrip uidsRep "Alpha" 5 3 emptyState
    (by norm_num [W]) (by norm_num [W]) (by norm_num) (by norm_num [W])
    (by decide) hfresh
  exact ⟨h.1, h.2.1, h.2.2.2⟩

/-- C4 counterexample: on the empty store the repository fails with
"game not found", but the service replaces it by the storage-failure wrap
"get game from repository has failed": the NotFound kind does not reach
the caller. -/
theorem get_notfound_kind_erased :
    repoGet emptyGames "missing" = .error "game not found" ∧
    serviceGet emptyState "missing"
      = .error "get game from repository has failed" ∧
    "get game from repository has failed" ≠ "game not found" :=
  ⟨rfl, rfl, by decide⟩

/-- C4 (amended): the service Get maps every repository failure, NotFound
included, to the single error "get game from repository has failed"; the
failure kind is not distinguishable by the caller. -/
theorem get_wraps_every_repo_failure (st : ServiceState) (id e : String)
    (h : repoGet st.repo id = .error e) :
    serviceGet st id = .error "get game from repository has failed" := by
  unfold serviceGet
  rw [h]

/-- Witness for C4 on the empty store. -/
theorem get_wraps_every_repo_failure_witness :
    serviceGet emptyState "x" = .error "get game from repository has failed" :=
  get_wraps_every_repo_failure emptyState "x" "game not found" rfl

/-- C5: Save never fails and upserts the entry keyed by the Game's ID,
leaving every other key unchanged; saving the same Game twice leaves a
state where repository Get returns that value unchanged. -/
theorem save_upsert_idempotent (repo : GamesMap) (g : Game) :
    (∀ e, repoSave repo g ≠ .error e) ∧
    ∀ r2, repoSave repo g = .ok r2 →
      (r2 g.ID = some g ∧ ∀ k, k ≠ g.ID → r2 k = repo k) ∧
      ∀ r3, repoSave r2 g = .ok r3 → repoGet r3 g.ID = .ok g := by
  refine ⟨fun e h => by simp [repoSave] at h, ?_⟩
  intro r2 h2
  have hr2 : r2 = fun k => if k = g.ID then some g else repo k := by
    simpa [repoSave] using h2.symm
  subst hr2
  refine ⟨⟨by simp, fun k hk => by simp [hk]⟩, ?_⟩
  intro r3 h3
  have hr3 : r3 = fun k => if k = g.ID then some g
      else if k = g.ID then some g else repo k := by
    simpa [repoSave] using h3.symm
  subst hr3
  simp [repoGet]

/-- Witness for C5: double-saving the Game with ID "u" into the empty
store, then reading key "u", returns that Game; and the first save is not
an error. -/
theorem save_upsert_idempotent_witness :
    repoSave emptyGames (NewGame "u" "A" 5 3) ≠ .error "boom" ∧
    repoGet savedTwice "u" = .ok (NewGame "u" "A" 5 3) :=
  ⟨(save_upsert_idempotent emptyGames (NewGame "u" "A" 5 3)).1 "boom",
   ((save_upsert_idempotent emptyGames (NewGame "u" "A" 5 3)).2
      savedOnce rfl).2 savedTwice rfl⟩

/-- C6: repository Get returns the stored Game when an entry for the key
exists, and fails with "game not found" exactly when no entry exists. -/
theorem repo_get_found_iff (repo : GamesMap) (id : String) :
    (∀ g, repo id = some g → repoGet repo id = .ok g) ∧
    (repoGet repo id = .error "game not found" ↔ repo id = none) := by
  constructor
  · intro g hg
    simp [repoGet, hg]
  · cases hrep : repo id with
    | none => simp [repoGet, hrep]
    | some g => simp [repoGet, hrep]

/-- Witness for C6: a present key returns its Game, an absent key returns
the not-found error. -/
theorem repo_get_found_iff_witness :
    repoGet singleGame "u" = .ok (NewGame "u" "A" 5 3) ∧
    repoGet emptyGames "nope" = .error "game not found" :=
  ⟨(repo_get_found_iff singleGame "u").1 (NewGame "u" "A" 5 3) rfl,
   (repo_get_found_iff emptyGames "nope").2.mpr rfl⟩

/-- C7 counterexample: with the store empty the repository reports
NotFound for "missing-id", yet HTTPHandler.Get answers status 500 — not
the 404 the claim requires. -/
theorem http_get_notfound_returns_500 :
    repoGet emptyGames "missing-id" = .error "game not found" ∧
    handlerGet emptyState "missing-id"
      = (500, .messageJSON "get game from repository has failed") ∧
    (500 : Nat) ≠ 404 :=
  ⟨rfl, rfl, by decide⟩

/-- C7 (amended): HTTPHandler.Get maps every failure from the service,
NotFound included, to status 500 with the error message, and success to
status 200 with the Game JSON. -/
theorem http_get_status_mapping (st : ServiceState) (id : String) :
    (∀ e, serviceGet st id = .error e →
        handlerGet st id = (500, .messageJSON e)) ∧
    (∀ g, serviceGet st id = .ok g →
        handlerGet st id = (200, .gameJSON g)) := by
  constructor
  · intro e he
    unfold handlerGet
    rw [he]
  · intro g hg
    unfold handlerGet
    rw [hg]

/-- Witness for C7: a miss answers 500, a hit answers 200 with the Game. -/
theorem http_get_status_mapping_witness :
    handlerGet emptyState "y"
      = (500, .messageJSON "get game from repository has failed") ∧
    handlerGet { repo := singleGame, uidCounter := 1 } "u"
      = (200, .gameJSON (NewGame "u" "A" 5 3)) :=
  ⟨(http_get_status_mapping emptyState "y").1
      "get game from repository has failed" rfl,
   (http_get_status_mapping { repo := singleGame, uidCounter := 1 } "u").2
      (NewGame "u" "A" 5 3) rfl⟩
